import Mathlib

/-!
Verification of the Transcriber repository.

This file is a shallow embedding of the LLM qualification layer
(src/llm_openai.py) and of the presentation-layer helpers (src/app.py),
together with theorems settling the frozen claims about them.

External boundaries are modelled as explicit parameters:
the OpenAI chat API as an oracle mapping the index of each successive
chat-completion call to its outcome, the tiktoken byte-pair encoder as a
function from model name and text to a token count, the i18n string
tables as a lookup function, and the persisted-file state as a value.
Exceptions become Except values; the synchronous sleeps of the retry loop
are recorded as a trace of sleep durations so that the retry policy can
be stated exactly.
-/

namespace Transcriber

/-- Modelled from the spec: per-sentence audio diagnostics
(main_types.AdditionalProperties is not under src/): linear amplitude
magnitudes and an optional list of recorded-audio file paths, built
incrementally via an append operation that lazily creates the list. -/
structure AdditionalProperties where
  vad_ave_level : ℚ := 0
  vad_max_level : ℚ := 0
  audio_level : ℚ := 0
  segment_audio_level : ℚ := 0
  audio_file_name_list : Option (List String) := none
deriving DecidableEq

/-- Modelled from the spec: the append operation of AdditionalProperties
that lazily creates the recorded-audio file list. -/
def AdditionalProperties.append_audio_file (prop : AdditionalProperties)
    (name : String) : AdditionalProperties :=
  { prop with
    audio_file_name_list := some (prop.audio_file_name_list.getD [] ++ [name]) }

/-- Modelled from the spec: one transcribed utterance
(main_types.Sentence is not under src/): start time tm0 and end time tm1
in epoch seconds, text, person_id (-1 meaning unknown speaker),
person_name, optional voice-print embedding, optional prop. Times are
modelled over ℚ. -/
structure Sentence where
  tm0 : ℚ
  tm1 : ℚ
  text : String
  person_id : Int := -1
  person_name : String := ""
  embedding : Option (List ℚ) := none
  prop : Option AdditionalProperties := none
deriving DecidableEq

/-- Modelled from the spec: the Sentence clone operation is a deep copy;
in this embedding values are immutable, so a clone is the value itself. -/
def Sentence.clone (s : Sentence) : Sentence := s

/-- The recorded-audio file list of a sentence, empty when the sentence
has no prop or the prop has no list; used to state the display-merge
concatenation property. -/
def Sentence.audio_files (s : Sentence) : List String :=
  match s.prop with
  | none => []
  | some pr => pr.audio_file_name_list.getD []

/-- Modelled from the spec: the output record of the qualification
pipeline for one chunk (main_types.QualifiedResult is not under src/). -/
structure QualifiedResult where
  corrected_sentences : List Sentence
  summaries : String
  action_items : List String
deriving DecidableEq

/-- From src/app.py _merge_sentences: merging the incoming sentence s
into the last already-accumulated sentence s0 (the Python mutates the
list entry ret[-1] in place; here the updated value is rebuilt). The
text is extended with a space and the incoming text, tm1 becomes the
incoming end time, and, when the incoming sentence carries a
recorded-audio file list, its entries are appended one by one after a
missing prop on the accumulated side is replaced by a fresh
AdditionalProperties(). -/
def merge_into (s0 s : Sentence) : Sentence :=
  let s1 : Sentence := { s0 with text := s0.text ++ " " ++ s.text, tm1 := s.tm1 }
  match s.prop with
  | some sp =>
    match sp.audio_file_name_list with
    | some names =>
      let base : AdditionalProperties := s1.prop.getD {}
      { s1 with prop := some (names.foldl (fun pr n => pr.append_audio_file n) base) }
    | none => s1
  | none => s1

/-- From src/app.py _merge_sentences: the body of the loop over the
incoming sentences. The source condition is
s.person_id != -1 and len(ret) != 0 and ret[-1].person_id == s.person_id
and ret[-1].tm1 + merge_interval > s.tm0; the len(ret) != 0 test is
rendered here by matching on getLast?. When the condition fails a clone
of the sentence is appended instead. -/
def merge_step (merge_interval : ℚ) (ret : List Sentence) (s : Sentence) :
    List Sentence :=
  match ret.getLast? with
  | some s0 =>
    if s.person_id ≠ -1 ∧ s0.person_id = s.person_id ∧
        s0.tm1 + merge_interval > s.tm0 then
      ret.dropLast ++ [merge_into s0 s]
    else ret ++ [s.clone]
  | none => ret ++ [s.clone]

/-- From src/app.py _merge_sentences: fold of the loop body over the
sentence list, starting from the empty accumulator. The Python parameter
merge_interval defaults to 10.0; the display path always calls the
function with that default. -/
def merge_sentences (sentences : List Sentence) (merge_interval : ℚ) :
    List Sentence :=
  sentences.foldl (merge_step merge_interval) []

/-- From src/app.py _scaled_db: sys.float_info.epsilon, which equals
2 ^ (-52), modelled exactly over ℚ. -/
def machine_epsilon : ℚ := 1 / 2 ^ 52

/-- From src/app.py _scaled_db: the argument handed to np.log10, namely
max(v, sys.float_info.epsilon). The surrounding formula
(6.0 / log10 2.0) * log10 (scaled_db_arg v) is stated over ℝ in the
claim theorem; numpy float arithmetic is modelled exactly over ℚ and ℝ. -/
def scaled_db_arg (v : ℚ) : ℚ := max v machine_epsilon

/-- Modelled from the spec: the engine Configuration record
(main.Configuration is not under src/). Only default construction
matters for the load-fallback logic, so a representative pair of fields
stands for the full record. -/
structure Configuration where
  language : String := "en"
  device : String := "cpu"
deriving DecidableEq

/-- The state of the persisted config.pickle file as seen by
_load_configuration: absent, present and unpickling to a dict holding a
"conf" entry, or present but failing to unpickle (or lacking the
entry). -/
inductive PickleFileState where
  | absent : PickleFileState
  | invalid : PickleFileState
  | valid : Configuration → PickleFileState
deriving DecidableEq

/-- The exception raised out of pickle.load (or the dict lookup) on a
present-but-invalid persisted file. -/
inductive LoadError where
  | unpickleError : LoadError
deriving DecidableEq

/-- From src/app.py _load_configuration: start from an all-defaults
Configuration; when os.path.isfile finds the persisted file, open and
unpickle it and take its "conf" entry. Only the absent case falls back:
a file that fails to unpickle raises out of the function, modelled as an
error value. -/
def load_configuration (fs : PickleFileState) : Except LoadError Configuration :=
  match fs with
  | .absent => .ok {}
  | .valid c => .ok c
  | .invalid => .error .unpickleError

lemma append_audio_file_foldl (names : List String) (pr : AdditionalProperties) :
    (names.foldl (fun a n => a.append_audio_file n) pr).audio_file_name_list.getD [] =
      pr.audio_file_name_list.getD [] ++ names := by
  induction names generalizing pr with
  | nil => simp
  | cons n ns ih =>
    rw [List.foldl_cons, ih]
    simp [AdditionalProperties.append_audio_file]

lemma merge_into_text (s0 s : Sentence) :
    (merge_into s0 s).text = s0.text ++ " " ++ s.text := by
  cases hs : s.prop with
  | none => simp [merge_into, hs]
  | some sp =>
    cases hn : sp.audio_file_name_list with
    | none => simp [merge_into, hs, hn]
    | some names => simp [merge_into, hs, hn]

lemma merge_into_tm1 (s0 s : Sentence) : (merge_into s0 s).tm1 = s.tm1 := by
  cases hs : s.prop with
  | none => simp [merge_into, hs]
  | some sp =>
    cases hn : sp.audio_file_name_list with
    | none => simp [merge_into, hs, hn]
    | some names => simp [merge_into, hs, hn]

lemma merge_into_audio_files (s0 s : Sentence) :
    (merge_into s0 s).audio_files = s0.audio_files ++ s.audio_files := by
  cases hs : s.prop with
  | none => simp [merge_into, Sentence.audio_files, hs]
  | some sp =>
    cases hn : sp.audio_file_name_list with
    | none => simp [merge_into, Sentence.audio_files, hs, hn]
    | some names =>
      cases h0 : s0.prop with
      | none =>
        simp [merge_into, Sentence.audio_files, hs, hn, h0, append_audio_file_foldl]
      | some pr0 =>
        simp [merge_into, Sentence.audio_files, hs, hn, h0, append_audio_file_foldl]

/-- C3: the display merge (merge_sentences at the default 10.0-second
interval) merges a sentence into the accumulated predecessor exactly when
both carry the same person_id, that id is not -1, and the gap from the
predecessor end time tm1 to the sentence start time tm0 is strictly less
than 10 seconds; the merged sentence joins the texts with a single space,
extends tm1 to the second sentence end, and concatenates the
recorded-audio file lists. The equivalence also yields that a gap of
exactly 10 seconds or more never merges and that an unknown-speaker
sentence (-1) never merges into a neighbor on either side. The first
conjunct characterizes one step of the fold defining merge_sentences for
any accumulator, hence for every sentence list. -/
theorem merge_sentences_spec :
    (∀ acc s0 s, merge_step 10 (acc ++ [s0]) s =
      if s.person_id ≠ -1 ∧ s0.person_id = s.person_id ∧ s0.tm1 + 10 > s.tm0 then
        acc ++ [merge_into s0 s]
      else acc ++ [s0, s.clone]) ∧
    (∀ s0 s : Sentence,
      (s.person_id ≠ -1 ∧ s0.person_id = s.person_id ∧ s0.tm1 + 10 > s.tm0) ↔
        (s0.person_id = s.person_id ∧ s0.person_id ≠ -1 ∧ s.tm0 - s0.tm1 < 10)) ∧
    (∀ s0 s, (merge_into s0 s).text = s0.text ++ " " ++ s.text ∧
      (merge_into s0 s).tm1 = s.tm1 ∧
      (merge_into s0 s).audio_files = s0.audio_files ++ s.audio_files) ∧
    (∀ a b, merge_sentences [a, b] 10 =
      if b.person_id ≠ -1 ∧ a.person_id = b.person_id ∧ a.tm1 + 10 > b.tm0 then
        [merge_into a b]
      else [a, b]) := by
  refine ⟨?_, ?_, ?_, ?_⟩
  · intro acc s0 s
    simp only [merge_step, List.getLast?_concat, List.dropLast_concat]
    split
    · simp
    · simp [Sentence.clone]
  · intro s0 s
    constructor
    · rintro ⟨h1, h2, h3⟩
      refine ⟨h2, by rw [h2]; exact h1, by linarith⟩
    · rintro ⟨h2, h1, h3⟩
      refine ⟨by rw [← h2]; exact h1, h2, by linarith⟩
  · intro s0 s
    exact ⟨merge_into_text s0 s, merge_into_tm1 s0 s, merge_into_audio_files s0 s⟩
  · intro a b
    show merge_step 10 (merge_step 10 [] a) b = _
    have h1 : merge_step 10 [] a = [a] := by
      simp [merge_step, Sentence.clone]
    rw [h1]
    simp only [merge_step, List.getLast?_singleton, List.dropLast_single]
    split
    · simp
    · simp [Sentence.clone]

/-- C8 counterexample: with the persisted file present but failing to
unpickle, _load_configuration does not return a Configuration: the
unpickling error propagates out, refuting the present-but-invalid half
of the claim. -/
theorem load_configuration_invalid_cex :
    ¬ ∃ c : Configuration,
      load_configuration PickleFileState.invalid = Except.ok c :=
  fun ⟨_, h⟩ => Except.noConfusion h

/-- C8 (amended): _load_configuration falls back to the all-defaults
Configuration only when the persisted file is absent, returns the stored
Configuration when the file is present and valid, and lets the
unpickling error propagate when the file is present but invalid. -/
theorem load_configuration_fallback :
    load_configuration .absent = .ok {} ∧
    (∀ c, load_configuration (.valid c) = .ok c) ∧
    load_configuration .invalid = .error .unpickleError :=
  ⟨rfl, fun _ => rfl, rfl⟩

/-- C9: the decibel scaling is total and domain-safe. For every input v
(including 0 and negatives) the argument handed to log10 is
max(v, machine epsilon), which is strictly positive, so log10 is never
applied to a non-positive value and no domain error can arise; and at
v = 1.0 the full formula (6 / log10 2) * log10 (max v eps) evaluates to
0. Stated over exact rationals and reals; numpy floating point is
abstracted to real arithmetic. -/
theorem scaled_db_spec :
    (∀ v : ℚ, 0 < scaled_db_arg v) ∧
    (6 / Real.logb 10 2) * Real.logb 10 ((scaled_db_arg 1 : ℚ) : ℝ) = 0 := by
  constructor
  · intro v
    have h : (0 : ℚ) < machine_epsilon := by norm_num [machine_epsilon]
    exact lt_of_lt_of_le h (le_max_right _ _)
  · have h1 : scaled_db_arg 1 = 1 := by
      have h : machine_epsilon ≤ 1 := by norm_num [machine_epsilon]
      simpa [scaled_db_arg] using max_eq_left h
    rw [h1]
    simp

/-! ## The LLM qualification layer (src/llm_openai.py)

A chat message is the ordered field list of the Python dict
`\x7b"role": ..., "content": ...\x7d`; keeping it as a key-value list
preserves the per-field iteration of the token accounting, including its
special case for a "name" key. The byte-pair encoder of tiktoken is an
external dependency, abstracted as `enc : String → String → Nat` giving
`len(encoding_for_model(model).encode(text))` (the fallback cl100k_base
encoding for unrecognized models is folded into the same parameter).
The chat API is abstracted as `oracle : Nat → ApiOutcome`, the outcome
of the n-th ChatCompletion.create call of the run; every function below
threads the index of the next call and returns, besides its
Except-valued result, the next index and the list of time.sleep
durations it performed. -/

/-- A chat message as its ordered (key, value) field list. -/
abbrev Msg := List (String × String)

/-- The outcome of one ChatCompletion.create call: a completion with a
finish reason and content, an openai.error.AuthenticationError, or a
non-authentication transport/API error (urllib HTTPError or any other
openai.OpenAIError), each carrying its detail text. -/
inductive ApiOutcome where
  | success : String → String → ApiOutcome
  | authError : String → ApiOutcome
  | apiError : String → ApiOutcome
deriving DecidableEq

/-- The exceptions that escape the layer: AuthenticationError, the
transport error re-raised after the retry budget, the RuntimeError for a
finish reason other than "stop", the RuntimeError of the 3096-token
ceiling (carrying the serialized messages), the RuntimeError for
repeatedly invalid responses (carrying the serialized messages and the
last raw response), and NotImplementedError from the token accounting. -/
inductive LlmError where
  | auth : String → LlmError
  | api : String → LlmError
  | unexpectedFinish : String → LlmError
  | tokenLimit : List Msg → LlmError
  | invalidResponse : List Msg → String → LlmError
  | notImplemented : String → LlmError
deriving DecidableEq

/-- The Python infix test `pat in s`. -/
def strContains (s pat : String) : Bool := (s.splitOn pat).length != 1

/-- From src/llm_openai.py _num_tokens_from_messages: the accumulation
once tokens_per_message and tokens_per_name are fixed: per message add
tokens_per_message, then per (key, value) field add the encoded length
of the value plus tokens_per_name when the key is "name"; finally add 3
for reply priming. -/
def numTokensCore (enc : String → String → Nat) (messages : List Msg)
    (model : String) (tpm tpn : Int) : Int :=
  (messages.foldl (fun acc message =>
    message.foldl (fun a kv =>
      a + (enc model kv.2 : Int) + (if kv.1 = "name" then tpn else 0))
      (acc + tpm)) 0) + 3

/-- The models given tokens_per_message = 3, tokens_per_name = 1 in
src/llm_openai.py _num_tokens_from_messages. -/
def modernChatModels : List String :=
  ["gpt-3.5-turbo-0613", "gpt-3.5-turbo-16k-0613", "gpt-4-0314",
   "gpt-4-32k-0314", "gpt-4-0613", "gpt-4-32k-0613"]

/-- From src/llm_openai.py _num_tokens_from_messages, base cases only:
the listed modern models, the legacy gpt-3.5-turbo-0301 accounting
(4 per message, -1 per name), otherwise NotImplementedError. Split out
because the two fallback branches of the source recurse with a fixed
sibling model name that always lands in a base case. -/
def num_tokens_from_messages_base (enc : String → String → Nat)
    (messages : List Msg) (model : String) : Except LlmError Int :=
  if model ∈ modernChatModels then
    .ok (numTokensCore enc messages model 3 1)
  else if model = "gpt-3.5-turbo-0301" then
    .ok (numTokensCore enc messages model 4 (-1))
  else .error (.notImplemented model)

/-- From src/llm_openai.py _num_tokens_from_messages: the full model
dispatch. A name containing "gpt-3.5-turbo" (or "gpt-4") that is not
listed recurses with the fixed sibling "gpt-3.5-turbo-0613"
("gpt-4-0613"); the recursion is unfolded into the base-case function
since its argument is a literal that always hits a base case. -/
def num_tokens_from_messages (enc : String → String → Nat)
    (messages : List Msg) (model : String) : Except LlmError Int :=
  if model ∈ modernChatModels then
    .ok (numTokensCore enc messages model 3 1)
  else if model = "gpt-3.5-turbo-0301" then
    .ok (numTokensCore enc messages model 4 (-1))
  else if strContains model "gpt-3.5-turbo" then
    num_tokens_from_messages_base enc messages "gpt-3.5-turbo-0613"
  else if strContains model "gpt-4" then
    num_tokens_from_messages_base enc messages "gpt-4-0613"
  else .error (.notImplemented model)

/-- From src/llm_openai.py _check_token_limits: a RuntimeError carrying
the serialized messages when the count exceeds 3096. -/
def check_token_limits (enc : String → String → Nat) (messages : List Msg)
    (model_name : String) : Except LlmError Unit := do
  let n ← num_tokens_from_messages enc messages model_name
  if n > 3096 then .error (.tokenLimit messages) else .ok ()

/-- The result of a stateful call into the layer: the Except-valued
outcome, the index of the next ChatCompletion.create call, and the list
of time.sleep durations performed (in seconds, in order). -/
abbrev LlmResult (α : Type) := Except LlmError α × Nat × List Nat

/-- From src/llm_openai.py _invoke: the while-True transport loop.
remaining counts the attempts still allowed out of the hardcoded budget
of 3 (the source increments try_count and raises once try_count >= 3);
an AuthenticationError is re-raised at once; any other HTTPError or
OpenAIError sleeps 10 seconds and retries while budget remains, and the
last such error is raised when the budget is exhausted. A completion
whose finish reason is not "stop" raises a RuntimeError after the
loop. -/
def invokeGo (oracle : Nat → ApiOutcome) : Nat → Nat → List Nat →
    LlmResult String
  | k, 0, sleeps =>
    match oracle k with
    | .success fr content =>
      if fr = "stop" then (.ok content, k + 1, sleeps)
      else (.error (.unexpectedFinish fr), k + 1, sleeps)
    | .authError d => (.error (.auth d), k + 1, sleeps)
    | .apiError d => (.error (.api d), k + 1, sleeps)
  | k, r + 1, sleeps =>
    match oracle k with
    | .success fr content =>
      if fr = "stop" then (.ok content, k + 1, sleeps)
      else (.error (.unexpectedFinish fr), k + 1, sleeps)
    | .authError d => (.error (.auth d), k + 1, sleeps)
    | .apiError d =>
      if r = 0 then (.error (.api d), k + 1, sleeps)
      else invokeGo oracle (k + 1) r (sleeps ++ [10])

/-- From src/llm_openai.py _invoke: entry into the transport loop with
the full budget of 3 attempts. The messages and model name only
parameterize the ChatCompletion.create call, which the oracle models. -/
def invoke (oracle : Nat → ApiOutcome) (k : Nat) : LlmResult String :=
  invokeGo oracle k 3 []

/-- From src/llm_openai.py _invoke_with_retry: the for-loop over
range(3). Each iteration calls _invoke (whose exceptions propagate),
applies post_process, returns its result when processed, and otherwise
retries immediately (no sleep); exhausting the three iterations raises
the RuntimeError carrying the serialized request messages and the last
raw response (last starts out as the empty string r0 = ""). -/
def invokeWithRetryGo {β : Type} (oracle : Nat → ApiOutcome)
    (messages : List Msg) (post : String → Option β) :
    Nat → Nat → String → LlmResult β
  | 0, k, last => (.error (.invalidResponse messages last), k, [])
  | n + 1, k, _ =>
    match invoke oracle k with
    | (.error e, k1, sl) => (.error e, k1, sl)
    | (.ok r0, k1, sl) =>
      match post r0 with
      | some r1 => (.ok r1, k1, sl)
      | none =>
        match invokeWithRetryGo oracle messages post n k1 r0 with
        | (res, k2, sl2) => (res, k2, sl ++ sl2)

/-- From src/llm_openai.py _invoke_with_retry: check the token ceiling,
then run the content-validation loop with 3 iterations. -/
def invoke_with_retry {β : Type} (enc : String → String → Nat)
    (oracle : Nat → ApiOutcome) (messages : List Msg) (model_name : String)
    (post : String → Option β) (k : Nat) : LlmResult β :=
  match check_token_limits enc messages model_name with
  | .error e => (.error e, k, [])
  | .ok _ => invokeWithRetryGo oracle messages post 3 k ""

/-- From src/llm_openai.py _invoke_with_retry with post_process = None:
the raw response of the first successful _invoke is returned directly,
which coincides with running the loop under an always-accepting
post-processor. -/
def invoke_with_retry_no_post (enc : String → String → Nat)
    (oracle : Nat → ApiOutcome) (messages : List Msg) (model_name : String)
    (k : Nat) : LlmResult String :=
  invoke_with_retry enc oracle messages model_name some k

/-! ### The two re.findall patterns

Pass 1 parses the response with `([^:]+): (.+)\x7c\n*` (a maximal nonempty
run of non-colon characters, the literal colon-space, then at least one
non-newline character captured greedily to the end of the line, then any
newlines). Pass 2 uses `point: (.+)\n*` and `action item: (.+)\n*`. Both
are modelled by a scan that attempts a match at every position from left
to right, emits the capture groups on success and resumes after the
matched span, and advances one character on failure: exactly the
non-overlapping leftmost semantics of re.findall for these patterns
(inside a maximal non-colon run the engine cannot backtrack to a shorter
run, because the character required after the run is a colon). -/

/-- The scan for `([^:]+): (.+)\n*` over the character list, returning
the two capture groups of each match. The maximal non-colon run from the
current position is the takeWhile, and the remainder after it is the
dropWhile; the run must be nonempty and followed by the literal
colon-space, then a nonempty non-newline capture. The fuel argument
makes the recursion structural (so that witnesses evaluate by kernel
reduction): every recursive call moves to a strictly shorter suffix, so
the invariant fuel >= length of the scanned list is preserved and with
the wrapper's initial fuel the zero-fuel case is never reached. -/
def findallNameContentFuel : Nat → List Char → List (List Char × List Char)
  | 0, _ => []
  | _ + 1, [] => []
  | fuel + 1, c :: cs =>
    match (c :: cs).dropWhile (· ≠ ':') with
    | ':' :: ' ' :: rest2 =>
      if ((c :: cs).takeWhile (· ≠ ':')).length ≠ 0 then
        if (rest2.takeWhile (· ≠ '\n')).length ≠ 0 then
          ((c :: cs).takeWhile (· ≠ ':'), rest2.takeWhile (· ≠ '\n')) ::
            findallNameContentFuel fuel
              ((rest2.drop (rest2.takeWhile (· ≠ '\n')).length).dropWhile (· = '\n'))
        else findallNameContentFuel fuel cs
      else findallNameContentFuel fuel cs
    | _ => findallNameContentFuel fuel cs

/-- From src/llm_openai.py _correct_sentences_with_embeddings:
re.findall of `([^:]+): (.+)\n*` over the response. -/
def findallNameContent (s : String) : List (String × String) :=
  (findallNameContentFuel s.data.length s.data).map
    (fun p => (String.mk p.1, String.mk p.2))

/-- The scan for `lit(.+)\n*` with a literal lit, returning the capture
group of each match. Fuel as in findallNameContentFuel: every recursive
call scans a strictly shorter suffix, so the wrapper's initial fuel
(the full length) never runs out. -/
def findallAfterFuel (lit : List Char) : Nat → List Char → List (List Char)
  | 0, _ => []
  | _ + 1, [] => []
  | fuel + 1, c :: cs =>
    if lit.isPrefixOf (c :: cs) then
      if (((c :: cs).drop lit.length).takeWhile (· ≠ '\n')).length ≠ 0 then
        ((c :: cs).drop lit.length).takeWhile (· ≠ '\n') ::
          findallAfterFuel lit fuel
            ((((c :: cs).drop lit.length).drop
                (((c :: cs).drop lit.length).takeWhile (· ≠ '\n')).length).dropWhile
              (· = '\n'))
      else findallAfterFuel lit fuel cs
    else findallAfterFuel lit fuel cs

/-- From src/llm_openai.py _summarize_sub: re.findall of
`point: (.+)\n*`. -/
def findallPoint (s : String) : List String :=
  (findallAfterFuel "point: ".data s.data.length s.data).map String.mk

/-- From src/llm_openai.py _summarize_sub: re.findall of
`action item: (.+)\n*`. -/
def findallActionItem (s : String) : List String :=
  (findallAfterFuel "action item: ".data s.data.length s.data).map String.mk

/-! ### Prompt construction -/

/-- From src/llm_openai.py: the default model name. -/
def default_model_name : String := "gpt-4-0613"

/-- From src/llm_openai.py QualifyOptions. -/
structure QualifyOptions where
  input_language : String := "ja"
  output_language : String := "ja"
  model_for_step1 : String := default_model_name
  model_for_step2 : String := default_model_name
deriving DecidableEq

/-- From src/llm_openai.py _qualify_p0_template_no_embeddings. -/
def qualify_p0_template_no_embeddings : String :=
  "The following %(source_language_descriptor)s text is a mechanical transcription of a conversation during a meeting.\n" ++
  "Please correct this sentence and extract only what makes sense as a meeting conversation.\n" ++
  "To do so, please correct what you assume to be transcription errors and remove fillers and rephrasing.\n" ++
  "%(output_language_descriptor)s"

/-- From src/llm_openai.py _qualify_p0_template_with_embeddings. -/
def qualify_p0_template_with_embeddings : String :=
  "The following %(source_language_descriptor)s text is a mechanical transcription of a conversation during a meeting.\n" ++
  "Please correct this sentence and extract only what makes sense as a meeting conversation.\n" ++
  "To do so, please correct what you assume to be transcription errors and remove fillers and rephrasing.\n" ++
  "Each line of input text is the speaker\x27s name followed by \":\" and then the content of the statement.\n" ++
  "Output should maintain the same format.\n" ++
  "%(output_language_descriptor)s"

/-- From src/llm_openai.py _qualify_p1_template. -/
def qualify_p1_template : String :=
  "The following text is the transcribed minutes of a conversation during a meeting.\n" ++
  "From this transcript, please extract a summary and action items.\n" ++
  "The summary should include only proper nouns or the content of the discussion,\n" ++
  "and should not be supplemented with general knowledge or known facts.\n" ++
  "Action items should only include items explicitly mentioned by participants in the agenda, \n" ++
  "and should not include speculation.\n" ++
  "Only one summary should be printed following the \"point:\" and the action item should be prefixed with \"action item:\".\n" ++
  "For example, the format is as follows:\n" ++
  "%(output_example_descriptor)s\n" ++
  "If there is no particular information to be output, or if there is not enough information for the summary,\n" ++
  "just output \"none\"."

/-- From src/llm_openai.py _source_language_descriptor. The source is a
two-key dict; any other key raises KeyError there, so theorems touching
prompt construction restrict the languages to "en" and "ja". -/
def source_language_descriptor : String → String
  | "en" => "English"
  | "ja" => "Japanese"
  | _ => ""

/-- From src/llm_openai.py _output_language_descriptor_for_p0, indexed
first by output language, then by "default" (output equals input) or
"translate". Unlisted keys raise KeyError in the source. -/
def output_language_descriptor_for_p0 : String → String → String
  | "en", "default" =>
    "Output should be in English. Names of non-English spelling should not be converted to English, " ++
    "but should be retained in their original spelling."
  | "en", "translate" =>
    "Please translate the output into English. " ++
    "Names of non-English spelling should not be converted to English, " ++
    "but should be retained in their original spelling."
  | "ja", "default" =>
    "出力は日本語にしてください。ただし、日本語表記ではない人名は日本語に変換せず、原表記を維持してください。"
  | "ja", "translate" =>
    "日本語に翻訳して出力してください。ただし、日本語表記ではない人名は日本語に変換せず、原表記を維持してください。"
  | _, _ => ""

/-- From src/llm_openai.py _output_example_descriptor_for_p1. Unlisted
keys raise KeyError in the source. -/
def output_example_descriptor_for_p1 : String → String
  | "en" =>
    "point: An example of a main point. Please use sentence form, not a list of words.\n" ++
    "action item: An example of an action item.\n" ++
    "action item: There can be more than one action item.\n" ++
    "The words after \":\" should be written in English. " ++
    "However, names of non-English spelling should not be converted to English, " ++
    "but should be retained in their original spelling."
  | "ja" =>
    "point: 要点の例。文章にしてください。\n" ++
    "action item: アクションアイテムの例\n" ++
    "action item: アクションアイテムは複数になることもあります。\n" ++
    "\":\" 以降は日本語にしてください。ただし、日本語表記ではない人名は日本語に変換せず、原表記を維持してください。"
  | _ => ""

/-- From src/llm_openai.py _qualify_p0_system: the template (with or
without embeddings) instantiated by Python percent-formatting, rendered
as sequential substitution of the two placeholders (neither replacement
value contains a placeholder). -/
def qualify_p0_system (opt : QualifyOptions) (with_embeddings : Bool) : String :=
  ((if with_embeddings then qualify_p0_template_with_embeddings
    else qualify_p0_template_no_embeddings).replace
      "%(source_language_descriptor)s"
      (source_language_descriptor opt.input_language)).replace
    "%(output_language_descriptor)s"
    (output_language_descriptor_for_p0 opt.output_language
      (if opt.input_language = opt.output_language then "default" else "translate"))

/-- From src/llm_openai.py _qualify_p1_system. -/
def qualify_p1_system (opt : QualifyOptions) : String :=
  qualify_p1_template.replace "%(output_example_descriptor)s"
    (output_example_descriptor_for_p1 opt.output_language)

/-! ### The two passes and qualify -/

/-- Modelled from the spec: main_types.unknown_person_name, the display
placeholder for an unresolved speaker (main_types is not under src/);
its exact value is irrelevant to every claim. -/
def unknown_person_name : String := "unknown"

/-- From src/llm_openai.py _get_name. -/
def get_name (s : Sentence) : String :=
  if s.person_id ≠ -1 then s.person_name else unknown_person_name

/-- From src/llm_openai.py _correct_sentences_no_embeddings: empty input
short-circuits to the empty string with no API call; otherwise the texts
joined with spaces are sent under the no-embeddings system prompt with
post_process = None. -/
def correct_sentences_no_embeddings (enc : String → String → Nat)
    (oracle : Nat → ApiOutcome) (sentences : List Sentence)
    (model_name : String) (opt : QualifyOptions) (k : Nat) : LlmResult String :=
  if sentences.length = 0 then (.ok "", k, [])
  else
    invoke_with_retry_no_post enc oracle
      [[("role", "system"), ("content", qualify_p0_system opt false)],
       [("role", "user"),
        ("content", String.intercalate " " (sentences.map (fun s => s.text)))]]
      model_name k

/-- From src/llm_openai.py _correct_sentences_with_embeddings: the
name-to-id dict comprehension over the sentences with a known speaker;
later entries overwrite earlier ones, so the lookup reads the reversed
association list. -/
def name_to_id (sentences : List Sentence) (name : String) : Option Int :=
  ((sentences.filter (fun s => s.person_id ≠ -1)).map
    (fun s => (get_name s, s.person_id))).reverse.lookup name

/-- From src/llm_openai.py _correct_sentences_with_embeddings
_post_process: processed iff re.findall found at least one line (the
is-not-None test in the source is vacuous for findall). -/
def p0_post (r0 : String) : Option (List (String × String)) :=
  if (findallNameContent r0).length ≠ 0 then some (findallNameContent r0) else none

/-- From src/llm_openai.py _correct_sentences_with_embeddings: empty
input short-circuits to the empty list; otherwise the sentences rendered
as "Name: text" lines (newlines in a text indented by two spaces) are
sent under the with-embeddings prompt, the response is parsed by
p0_post, and each parsed line becomes a synthetic Sentence spanning the
chunk's full original time range, with person_id resolved by exact name
match (-1 when the name is not among the chunk's known speakers). -/
def correct_sentences_with_embeddings (enc : String → String → Nat)
    (oracle : Nat → ApiOutcome) (sentences : List Sentence)
    (model_name : String) (opt : QualifyOptions) (k : Nat) :
    LlmResult (List Sentence) :=
  match sentences with
  | [] => (.ok [], k, [])
  | s0 :: rest =>
    match invoke_with_retry enc oracle
      [[("role", "system"), ("content", qualify_p0_system opt true)],
       [("role", "user"),
        ("content", String.intercalate "\n" ((s0 :: rest).map
          (fun s => get_name s ++ ": " ++ s.text.replace "\n" "\n  ")))]]
      model_name p0_post k with
    | (.error e, k1, sl) => (.error e, k1, sl)
    | (.ok r1, k1, sl) =>
      (.ok (r1.map (fun e =>
        { tm0 := s0.tm0, tm1 := ((s0 :: rest).getLastD s0).tm1, text := e.2,
          person_name := e.1,
          person_id := (name_to_id (s0 :: rest) e.1).getD (-1) })), k1, sl)

/-- From src/llm_openai.py _summarize_sub _post_process: exactly one
`point:` line is required; a captured value equal to the literal "none"
is replaced by the hardcoded string "(なし)"; the `action item:`
captures equal to "none" are dropped. -/
def summarize_post (r0 : String) : Option (List String × List String) :=
  match findallPoint r0 with
  | [p] =>
    some ([if p = "none" then "(なし)" else p],
      (findallActionItem r0).filter (fun e => e ≠ "none"))
  | _ => none

/-- From src/llm_openai.py _summarize_sub: the argument is a sentence
list or an already-corrected plain string (Python len applies to both);
length zero short-circuits with no API call. A list is rendered as
"Name: text" lines exactly as in pass 1; the accepted post-processed
pair ([point], action_items) is returned as (point, action_items). -/
def summarize_sub (enc : String → String → Nat) (oracle : Nat → ApiOutcome)
    (sentences : List Sentence ⊕ String) (model_name : String)
    (prompt : String) (k : Nat) : LlmResult (String × List String) :=
  if (match sentences with
      | .inl l => l.length
      | .inr s => s.length) = 0 then (.ok ("", []), k, [])
  else
    match invoke_with_retry enc oracle
      [[("role", "system"), ("content", prompt)],
       [("role", "user"),
        ("content", match sentences with
          | .inl l => String.intercalate "\n" (l.map
              (fun s => get_name s ++ ": " ++ s.text.replace "\n" "\n  "))
          | .inr s => s)]]
      model_name summarize_post k with
    | (.error e, k1, sl) => (.error e, k1, sl)
    | (.ok (r1, r2), k1, sl) => (.ok (r1.headD "", r2), k1, sl)

/-- From src/llm_openai.py _summarize: pass 2 under the p1 system
prompt (built eagerly from opt, as in the Python call). -/
def summarize (enc : String → String → Nat) (oracle : Nat → ApiOutcome)
    (sentences : List Sentence ⊕ String) (model_name : String)
    (opt : QualifyOptions) (k : Nat) : LlmResult (String × List String) :=
  summarize_sub enc oracle sentences model_name (qualify_p1_system opt) k

/-- From src/llm_openai.py qualify: the first statement of the try
block, selecting the correction pass by whether any sentence carries an
embedding, with the pass-1 output injected into the sum type consumed by
pass 2. -/
def qualify_step1 (enc : String → String → Nat) (oracle : Nat → ApiOutcome)
    (sentences : List Sentence) (opt : QualifyOptions) (k : Nat) :
    LlmResult (List Sentence ⊕ String) :=
  if (sentences.filter (fun s => s.embedding.isSome)).length ≠ 0 then
    match correct_sentences_with_embeddings enc oracle sentences
        opt.model_for_step1 opt k with
    | (.ok l, k1, sl) => (.ok (.inl l), k1, sl)
    | (.error e, k1, sl) => (.error e, k1, sl)
  else
    match correct_sentences_no_embeddings enc oracle sentences
        opt.model_for_step1 opt k with
    | (.ok s, k1, sl) => (.ok (.inr s), k1, sl)
    | (.error e, k1, sl) => (.error e, k1, sl)

/-- From src/llm_openai.py qualify: the try block, pass 1 then pass 2 on
its output, with the sleep traces concatenated. -/
def qualify_body (enc : String → String → Nat) (oracle : Nat → ApiOutcome)
    (sentences : List Sentence) (opt : QualifyOptions) (k : Nat) :
    LlmResult (String × List String) :=
  match qualify_step1 enc oracle sentences opt k with
  | (.error e, k1, sl) => (.error e, k1, sl)
  | (.ok corrected, k1, sl) =>
    match summarize enc oracle corrected opt.model_for_step2 opt k1 with
    | (r, k2, sl2) => (r, k2, sl ++ sl2)

/-- From src/llm_openai.py qualify: run the two passes; an
AuthenticationError from either pass is caught and replaced by a
QualifiedResult holding the original sentences, the localized
authentication-error string (i18n.t of the key
app.qualify_llm_authentication_error, the i18n table being the abstract
lookup i18nT), and no action items; any other exception propagates. On
success the result again holds the original sentences (the source
comment reads: keep original) beside the summary and action items. -/
def qualify (enc : String → String → Nat) (oracle : Nat → ApiOutcome)
    (i18nT : String → String) (sentences : List Sentence)
    (opt : QualifyOptions) (k : Nat) : LlmResult QualifiedResult :=
  match qualify_body enc oracle sentences opt k with
  | (.error (.auth _), k1, sl) =>
    (.ok { corrected_sentences := sentences,
           summaries := i18nT "app.qualify_llm_authentication_error",
           action_items := [] }, k1, sl)
  | (.error e, k1, sl) => (.error e, k1, sl)
  | (.ok (summaries, action_items), k1, sl) =>
    (.ok { corrected_sentences := sentences, summaries := summaries,
           action_items := action_items }, k1, sl)

/-- Modelled from the spec: the fixed localized placeholder substituted
for a literal `none` point value, described as "no summary" rendered for
the target output locale; the Japanese rendering is the string the
source hardcodes, the English rendering follows the spec wording. Used
only to state the counterexample for the locale-dependence of the
placeholder. -/
def no_summary_placeholder : String → String
  | "ja" => "(なし)"
  | _ => "no summary"

/-! ### Concrete instances used by the witnesses -/

/-- A token counter assigning every text zero tokens. -/
def encW : String → String → Nat := fun _ _ => 0

/-- A token counter assigning every text 4000 tokens. -/
def encBigW : String → String → Nat := fun _ _ => 4000

/-- A localization table rendering each key in angle brackets. -/
def i18nW : String → String := fun key => "<" ++ key ++ ">"

/-- A sentence with no embedding and an unknown speaker. -/
def sW : Sentence := { tm0 := 0, tm1 := 1, text := "hello" }

/-- An API that always fails authentication. -/
def oracleAuthW : Nat → ApiOutcome := fun _ => .authError "bad key"

/-- An API that always fails at the transport level. -/
def oracleApiW : Nat → ApiOutcome := fun _ => .apiError "server error"

/-- An API that always answers with content no pass-1 parse accepts. -/
def oracleJunkW : Nat → ApiOutcome := fun _ => .success "stop" "no lines"

/-- An API that always answers with a single literal-none point line. -/
def oracleNoneW : Nat → ApiOutcome := fun _ => .success "stop" "point: none"

/-- An API that always answers with a single ordinary point line. -/
def oraclePointW : Nat → ApiOutcome := fun _ => .success "stop" "point: hi"

/-- A one-message request whose serialization the error payloads carry. -/
def messagesW : List Msg := [[("role", "user"), ("content", "x")]]

/-! ### Claim theorems for the LLM layer -/

/-- C4: for every message list and model name (which only parameterize
the API call the oracle stands for), non-authentication transport/API
failures of the chat call are retried up to 3 attempts total with a
10-second sleep after each failed attempt but the last, and the last
error is raised after the third failure; an authentication error on any
attempt propagates at once, with no further attempt and no further
sleep; a success within the budget returns the content. -/
theorem invoke_retry_policy :
    (∀ oracle k d0 d1 d2,
      oracle k = .apiError d0 → oracle (k + 1) = .apiError d1 →
      oracle (k + 2) = .apiError d2 →
      invoke oracle k = (.error (.api d2), k + 3, [10, 10])) ∧
    (∀ oracle k d,
      oracle k = .authError d →
      invoke oracle k = (.error (.auth d), k + 1, [])) ∧
    (∀ oracle k d0 d,
      oracle k = .apiError d0 → oracle (k + 1) = .authError d →
      invoke oracle k = (.error (.auth d), k + 2, [10])) ∧
    (∀ oracle k d0 d1 d,
      oracle k = .apiError d0 → oracle (k + 1) = .apiError d1 →
      oracle (k + 2) = .authError d →
      invoke oracle k = (.error (.auth d), k + 3, [10, 10])) ∧
    (∀ oracle k d0 c,
      oracle k = .apiError d0 → oracle (k + 1) = .success "stop" c →
      invoke oracle k = (.ok c, k + 2, [10])) := by
  refine ⟨?_, ?_, ?_, ?_, ?_⟩
  · intro oracle k d0 d1 d2 h0 h1 h2
    simp [invoke, invokeGo, h0, h1, h2]
  · intro oracle k d h0
    simp [invoke, invokeGo, h0]
  · intro oracle k d0 d h0 h1
    simp [invoke, invokeGo, h0, h1]
  · intro oracle k d0 d1 d h0 h1 h2
    simp [invoke, invokeGo, h0, h1, h2]
  · intro oracle k d0 c h0 h1
    simp [invoke, invokeGo, h0, h1]

/-- C4 witness: three transport failures in a row consume exactly three
attempts, sleep twice for 10 seconds, and raise the last error. -/
theorem invoke_retry_policy_witness :
    invoke oracleApiW 0 = (.error (.api "server error"), 3, [10, 10]) :=
  invoke_retry_policy.1 oracleApiW 0 "server error" "server error"
    "server error" rfl rfl rfl

/-- C6: when the token accounting for the messages and model yields a
count above 3096, the call fails at once with the over-limit error
carrying the full message payload: no chat-API call is consumed, no
sleep happens, and the content-validation loop is never entered, for any
post-processor. -/
theorem token_limit_not_retried :
    ∀ (β : Type) (enc : String → String → Nat) (oracle : Nat → ApiOutcome)
      (messages : List Msg) (model : String) (post : String → Option β)
      (k : Nat) (n : Int),
      num_tokens_from_messages enc messages model = .ok n → n > 3096 →
      invoke_with_retry enc oracle messages model post k =
        (.error (.tokenLimit messages), k, []) := by
  intro β enc oracle messages model post k n h1 h2
  have hck : check_token_limits enc messages model =
      .error (.tokenLimit messages) := by
    unfold check_token_limits
    rw [h1]
    exact if_pos h2
  unfold invoke_with_retry
  rw [hck]

/-- C6 witness: a request counted at 8006 tokens for gpt-4-0613 fails
with the over-limit error without consuming the API. -/
theorem token_limit_not_retried_witness :
    invoke_with_retry encBigW oracleApiW messagesW "gpt-4-0613" some 0 =
      (.error (.tokenLimit messagesW), 0, []) :=
  token_limit_not_retried String encBigW oracleApiW messagesW "gpt-4-0613"
    some 0 8006 rfl (by decide)

/-- C5: a content-validation failure retries the full call immediately.
When the token check passes, three consecutive transport-successful
responses all rejected by the post-processor consume exactly three
chat-API calls with no sleep in between and end in the invalid-response
error carrying the request messages and the last raw response. The
pass-1 with-embeddings post-processor rejects exactly the responses
whose name-content parse yields zero lines, and the pass-2
post-processor rejects exactly the responses whose point-line count
differs from one. -/
theorem invalid_response_policy :
    (∀ (β : Type) (enc : String → String → Nat) (oracle : Nat → ApiOutcome)
        (messages : List Msg) (model : String) (post : String → Option β)
        (k : Nat) (r0 r1 r2 : String),
      check_token_limits enc messages model = .ok () →
      oracle k = .success "stop" r0 → oracle (k + 1) = .success "stop" r1 →
      oracle (k + 2) = .success "stop" r2 →
      post r0 = none → post r1 = none → post r2 = none →
      invoke_with_retry enc oracle messages model post k =
        (.error (.invalidResponse messages r2), k + 3, [])) ∧
    (∀ r, p0_post r = none ↔ findallNameContent r = []) ∧
    (∀ r, summarize_post r = none ↔ (findallPoint r).length ≠ 1) := by
  refine ⟨?_, ?_, ?_⟩
  · intro β enc oracle messages model post k r0 r1 r2 hck h0 h1 h2 p0 p1 p2
    unfold invoke_with_retry
    rw [hck]
    simp [invokeWithRetryGo, invoke, invokeGo, h0, h1, h2, p0, p1, p2]
  · intro r
    rcases h : findallNameContent r with _ | ⟨a, l⟩ <;> simp [p0_post, h]
  · intro r
    rcases h : findallPoint r with _ | ⟨p, _ | ⟨q, l⟩⟩ <;> simp [summarize_post, h]

/-- C5 witness: three well-formed transport responses that the pass-1
parser rejects exhaust the loop and fail with the messages and the last
response preserved, with no sleeps and exactly three API calls. -/
theorem invalid_response_policy_witness :
    invoke_with_retry encW oracleJunkW messagesW "gpt-4-0613" p0_post 0 =
      (.error (.invalidResponse messagesW "no lines"), 3, []) :=
  invalid_response_policy.1 (List (String × String)) encW oracleJunkW
    messagesW "gpt-4-0613" p0_post 0 "no lines" "no lines" "no lines"
    rfl rfl rfl rfl rfl rfl rfl

/-- C7 counterexample: with the target output locale set to "en", an
accepted pass-2 response whose single point value is the literal none is
rendered as the hardcoded Japanese string, not as a placeholder rendered
for the target output locale: the claim fails at this input. -/
theorem summarize_none_placeholder_cex :
    summarize encW oracleNoneW (.inr "t") "gpt-4-0613"
      { input_language := "en", output_language := "en" } 0 =
      (.ok ("(なし)", []), 1, []) ∧
    ("(なし)" : String) ≠ no_summary_placeholder "en" :=
  ⟨rfl, by decide⟩

/-- C7 (amended): an accepted pass-2 response with exactly one point
line whose value is the literal none yields the fixed placeholder string
"(なし)" regardless of the configured output locale (the source
hardcodes the Japanese rendering); any other accepted point value is
passed through unchanged, and the action items are the action-item
captures with literal none entries dropped. -/
theorem summarize_none_placeholder :
    ∀ (enc : String → String → Nat) (oracle : Nat → ApiOutcome)
      (txt model prompt : String) (k : Nat) (r v : String),
      txt.length ≠ 0 →
      check_token_limits enc
        [[("role", "system"), ("content", prompt)],
         [("role", "user"), ("content", txt)]] model = .ok () →
      oracle k = .success "stop" r →
      findallPoint r = [v] →
      summarize_sub enc oracle (.inr txt) model prompt k =
        (.ok ((if v = "none" then "(なし)" else v),
          (findallActionItem r).filter (fun e => e ≠ "none")), k + 1, []) := by
  intro enc oracle txt model prompt k r v htxt hck h0 hp
  unfold summarize_sub
  rw [if_neg htxt]
  unfold invoke_with_retry
  rw [hck]
  simp [invokeWithRetryGo, invoke, invokeGo, h0, summarize_post, hp]

/-- C7 witness: an accepted response with the single point value hi
passes the value through unchanged. -/
theorem summarize_none_placeholder_witness :
    summarize_sub encW oraclePointW (.inr "t") "gpt-4-0613" "p" 0 =
      (.ok ("hi", []), 1, []) :=
  summarize_none_placeholder encW oraclePointW "t" "gpt-4-0613" "p" 0
    "point: hi" "hi" (by decide) rfl rfl rfl

/-- C1: if either LLM pass raises an authentication error, qualify
returns at once, without retrying and without propagating the error, a
QualifiedResult holding exactly the original input sentence list, the
localized authentication-error string, and an empty action-item list;
the call index and sleep trace are exactly those at which the error
arose, so no further API call or sleep happens. -/
theorem qualify_auth_fallback :
    (∀ (enc : String → String → Nat) (oracle : Nat → ApiOutcome)
        (i18nT : String → String) (sentences : List Sentence)
        (opt : QualifyOptions) (k : Nat) (d : String) (k1 : Nat) (sl1 : List Nat),
      qualify_step1 enc oracle sentences opt k = (.error (.auth d), k1, sl1) →
      qualify enc oracle i18nT sentences opt k =
        (.ok { corrected_sentences := sentences,
               summaries := i18nT "app.qualify_llm_authentication_error",
               action_items := [] }, k1, sl1)) ∧
    (∀ (enc : String → String → Nat) (oracle : Nat → ApiOutcome)
        (i18nT : String → String) (sentences : List Sentence)
        (opt : QualifyOptions) (k : Nat) (corrected : List Sentence ⊕ String)
        (k1 : Nat) (sl1 : List Nat) (d : String) (k2 : Nat) (sl2 : List Nat),
      qualify_step1 enc oracle sentences opt k = (.ok corrected, k1, sl1) →
      summarize enc oracle corrected opt.model_for_step2 opt k1 =
        (.error (.auth d), k2, sl2) →
      qualify enc oracle i18nT sentences opt k =
        (.ok { corrected_sentences := sentences,
               summaries := i18nT "app.qualify_llm_authentication_error",
               action_items := [] }, k2, sl1 ++ sl2)) := by
  constructor
  · intro enc oracle i18nT sentences opt k d k1 sl1 h
    simp [qualify, qualify_body, h]
  · intro enc oracle i18nT sentences opt k corrected k1 sl1 d k2 sl2 h1 h2
    simp [qualify, qualify_body, h1, h2]

/-- C1 witness: an authentication failure injected into pass 1 makes
qualify return the original sentence list, the localized
authentication-error string, and no action items, after a single API
call and no sleep. -/
theorem qualify_auth_fallback_witness :
    qualify encW oracleAuthW i18nW [sW] {} 0 =
      (.ok { corrected_sentences := [sW],
             summaries := i18nW "app.qualify_llm_authentication_error",
             action_items := [] }, 1, []) :=
  qualify_auth_fallback.1 encW oracleAuthW i18nW [sW] {} 0 "bad key" 1 [] rfl

/-- C2: whenever qualify returns a QualifiedResult, successful or
auth-fallback, its corrected_sentences field is exactly the original
input sentence list; on success the summary and action items are
exactly the pass-2 output on the pass-1 corrected text, which is thus
used only as the input to summarization and never surfaces in the
returned result. -/
theorem qualify_keeps_original_sentences :
    (∀ (enc : String → String → Nat) (oracle : Nat → ApiOutcome)
        (i18nT : String → String) (sentences : List Sentence)
        (opt : QualifyOptions) (k : Nat) (res : QualifiedResult)
        (k1 : Nat) (sl : List Nat),
      qualify enc oracle i18nT sentences opt k = (.ok res, k1, sl) →
      res.corrected_sentences = sentences) ∧
    (∀ (enc : String → String → Nat) (oracle : Nat → ApiOutcome)
        (i18nT : String → String) (sentences : List Sentence)
        (opt : QualifyOptions) (k : Nat) (corrected : List Sentence ⊕ String)
        (k1 : Nat) (sl1 : List Nat) (s : String) (a : List String)
        (k2 : Nat) (sl2 : List Nat),
      qualify_step1 enc oracle sentences opt k = (.ok corrected, k1, sl1) →
      summarize enc oracle corrected opt.model_for_step2 opt k1 =
        (.ok (s, a), k2, sl2) →
      qualify enc oracle i18nT sentences opt k =
        (.ok { corrected_sentences := sentences, summaries := s,
               action_items := a }, k2, sl1 ++ sl2)) := by
  constructor
  · intro enc oracle i18nT sentences opt k res k1 sl h
    unfold qualify at h
    split at h
    · simp only [Prod.mk.injEq, Except.ok.injEq] at h
      rw [← h.1]
    · exact absurd h (by simp)
    · simp only [Prod.mk.injEq, Except.ok.injEq] at h
      rw [← h.1]
  · intro enc oracle i18nT sentences opt k corrected k1 sl1 s a k2 sl2 h1 h2
    simp [qualify, qualify_body, h1, h2]

/-- C2 witness: on the auth-fallback outcome the returned result holds
exactly the original sentence list. -/
theorem qualify_keeps_original_sentences_witness :
    ∃ res : QualifiedResult,
      qualify encW oracleAuthW i18nW [sW] {} 0 = (.ok res, 1, []) ∧
      res.corrected_sentences = [sW] := by
  refine ⟨{ corrected_sentences := [sW],
            summaries := i18nW "app.qualify_llm_authentication_error",
            action_items := [] }, rfl, ?_⟩
  exact qualify_keeps_original_sentences.1 encW oracleAuthW i18nW [sW] {} 0
    _ 1 [] rfl

/-- C10: on the empty sentence list both passes short-circuit, so
qualify returns the empty corrected list, the empty summary string, and
no action items, consuming no chat-API call and sleeping never. The
hypothesis restricts the output language to the two keys of the
localized example table, since the Python pass-2 prompt construction is
evaluated eagerly and raises KeyError for any other locale even on
empty input. -/
theorem qualify_empty :
    ∀ (enc : String → String → Nat) (oracle : Nat → ApiOutcome)
      (i18nT : String → String) (opt : QualifyOptions) (k : Nat),
      opt.output_language = "en" ∨ opt.output_language = "ja" →
      qualify enc oracle i18nT [] opt k =
        (.ok { corrected_sentences := [], summaries := "",
               action_items := [] }, k, []) := by
  intro enc oracle i18nT opt k _
  rfl

/-- C10 witness: qualify on the empty list under the default options
returns the empty result without touching the API. -/
theorem qualify_empty_witness :
    qualify encW oracleAuthW i18nW [] {} 0 =
      (.ok { corrected_sentences := [], summaries := "",
             action_items := [] }, 0, []) :=
  qualify_empty encW oracleAuthW i18nW {} 0 (Or.inr rfl)

end Transcriber
